import Mathlib

/-!
Verification development for the `sas` operator (Rust sources under `src/`).

Shallow embedding conventions:
* Instants (`time::OffsetDateTime`) and durations (`time::Duration`) are
  modeled as integer nanoseconds since the epoch; the `time` crate performs
  exact (seconds, nanoseconds) arithmetic, which integer nanoseconds model
  faithfully on the ranges the claims exercise.
* `BTreeMap<String, String>` values are modeled as association lists built in
  the literal order of the source `BTreeMap::from([...])` calls (all key sets
  here are duplicate-free, so lookups agree with the map semantics).
* The Kubernetes client is external I/O; each API call a single reconciliation
  performs is modeled by an injected outcome (`SecretApiBehavior`,
  `patch_status` argument), and the calls actually performed are collected in
  an operation trace (`Op`).
* RFC3339 parsing and rendering (`OffsetDateTime::parse`,
  `utils::format_rfc3339`) are external to the decision logic under claim and
  are abstracted as function parameters `parse : String → Option Int` and
  `fmt : Int → String`.
-/

set_option linter.unusedVariables false

namespace SasOperator

/-- Decidable equality on `Except` (needed to evaluate traces by `decide`). -/
instance {ε α : Type} [DecidableEq ε] [DecidableEq α] : DecidableEq (Except ε α)
  | .ok a, .ok b =>
    if h : a = b then isTrue (h ▸ rfl) else isFalse (fun hh => h (Except.ok.inj hh))
  | .ok _, .error _ => isFalse Except.noConfusion
  | .error _, .ok _ => isFalse Except.noConfusion
  | .error a, .error b =>
    if h : a = b then isTrue (h ▸ rfl) else isFalse (fun hh => h (Except.error.inj hh))

/-- `time::Duration::hours` in nanoseconds. -/
def Duration.hours (h : Int) : Int := h * 3600 * 1000000000

/-- `time::Duration::seconds` in nanoseconds. -/
def Duration.seconds (s : Int) : Int := s * 1000000000

/-- Association list standing for a `BTreeMap<String, String>`. -/
abbrev StrMap := List (String × String)

/-- `crd.rs`: the user-authored spec of a `SasGenerator` resource. -/
structure SasGeneratorSpec where
  storage_account : String
  container_name : String
  secret_name : Option String
  sas_ttl_hours : Option Int
  sas_renewal_hours : Option Int
deriving Repr, DecidableEq

/-- `crd.rs`: the controller-owned status of a `SasGenerator` resource.
All fields default to `None` (`#[derive(Default)]` in the source). -/
structure SasGeneratorStatus where
  token : Option String := none
  target_secret : Option String := none
  generated : Option String := none
  expiry : Option String := none
deriving Repr, DecidableEq

/-- `crd.rs`: controller-wide defaults (the `client` handle is modeled
separately as injected API behavior). -/
structure ContextData where
  sas_renewal_hours : Int
  sas_ttl_hours : Int
deriving Repr, DecidableEq

/-- A `SasGenerator` resource as served by the API.  `metadata.name` and
`metadata.uid` are modeled as required fields: the API server assigns both to
every served object, which is what makes the source's
`controller_owner_ref(&()).unwrap()` total.  `namespace` is kept optional
(the source reads it with `unwrap_or_else(|| "default")`). -/
structure SasGenerator where
  name : String
  namespace_opt : Option String
  uid : String
  spec : SasGeneratorSpec
  status : Option SasGeneratorStatus
deriving Repr, DecidableEq

/-- `crd.rs` (`SasGenerator::target_secret_name`): explicit override argument,
else `spec.secret_name`, else the computed default
`format!("volsync-\x7b\x7d-\x7b\x7d", storage_account, container_name)`. -/
def SasGenerator.target_secret_name (sasgen : SasGenerator)
    (override_name : Option String) : String :=
  match override_name with
  | some nm => nm
  | none =>
    match sasgen.spec.secret_name with
    | some nm => nm
    | none =>
      "volsync-" ++ sasgen.spec.storage_account ++ "-" ++ sasgen.spec.container_name

/-- Kubernetes `OwnerReference` (the fields the source sets;
`block_owner_deletion` is not modeled). -/
structure OwnerReference where
  api_version : String
  kind : String
  name : String
  uid : String
  controller : Bool
deriving Repr, DecidableEq

/-- kube's `Resource::controller_owner_ref` for a `SasGenerator`: an owner
back-reference to the resource with `controller = true`.  The group, version
and kind come from the `#[kube(...)]` attribute in `crd.rs`. -/
def controller_owner_ref (sasgen : SasGenerator) : OwnerReference :=
  { api_version := "sas.azure.com/v1alpha1"
    kind := "SasGenerator"
    name := sasgen.name
    uid := sasgen.uid
    controller := true }

/-- `k8s_openapi` `ObjectMeta` (the fields the source sets). -/
structure ObjectMeta where
  name : Option String := none
  namespace_opt : Option String := none
  labels : Option StrMap := none
  annotations : Option StrMap := none
  owner_references : Option (List OwnerReference) := none
deriving Repr, DecidableEq

/-- `k8s_openapi` `Secret` (the fields the source sets). -/
structure Secret where
  metadata : ObjectMeta
  string_data : Option StrMap := none
deriving Repr, DecidableEq

/-- `secret.rs` (`secret_labels`): provenance labels of the derived secret. -/
def secret_labels (spec : SasGeneratorSpec) : StrMap :=
  [("sas.azure.com/account", spec.storage_account),
   ("sas.azure.com/container", spec.container_name)]

/-- `secret.rs` (`secret_annotations`): issuance/expiry stamps of the derived
secret, taken from the given status (empty string when absent). -/
def secret_annotations (status : SasGeneratorStatus) : StrMap :=
  [("sas.azure.com/generated", status.generated.getD ""),
   ("sas.azure.com/expires", status.expiry.getD "")]

/-- `secret.rs` (`secret_data`): the derived secret's string data; the token
value defaults to the empty string when absent. -/
def secret_data (spec : SasGeneratorSpec) (token : Option String) : StrMap :=
  [("sas_token", token.getD ""),
   ("account", spec.storage_account),
   ("container", spec.container_name)]

/-- kube's `Error`: the `Api(ErrorResponse)` variant carries an HTTP status
code; every other variant is collapsed into `other`. -/
inductive KubeError where
  | api (code : Nat) (message : String)
  | other (message : String)
deriving Repr, DecidableEq

/-- Display text of a `kube::Error` (the source only ever embeds it into
format strings). -/
def KubeError.toMsg : KubeError → String
  | .api _ m => m
  | .other m => m

/-- `reconcile.rs` (`ReconcileError`): the closed error taxonomy of one
reconciliation. -/
inductive ReconcileError where
  | kube (e : KubeError)
  | azure (msg : String)
  | crdApply (msg : String)
deriving Repr, DecidableEq

/-- One Kubernetes API call performed during a reconciliation, or the remote
issuance call.  Reconciliation functions return the trace of these
operations alongside their result. -/
inductive Op where
  | getSecret (name : String)
  | createSecret (s : Secret)
  | patchSecret (name : String) (force : Bool) (manager : String) (s : Secret)
  | issueSas (account : String) (container : String) (ttl_hours : Int)
  | patchStatus (name : String) (force : Bool) (manager : String)
      (spec : SasGeneratorSpec) (status : SasGeneratorStatus)
deriving Repr, DecidableEq

/-- Injected outcomes of the (at most one each) secret API calls a single
`ensure_secret` run performs.  `create` and `patch` return the stored object
in kube; the source discards it, so `Unit` suffices. -/
structure SecretApiBehavior where
  get : Except KubeError Secret
  create : Except KubeError Unit
  patch : Except KubeError Unit

/-- The full desired secret `ensure_secret` builds before talking to the API
(`secret.rs` lines 57-68): metadata (name, namespace, labels, annotations,
owner back-reference) plus string data.  Labels, annotations and data are
derived from the resource itself; the status used is the resource's current
status, defaulted when absent (`sasgen.status.clone().unwrap_or_default()`). -/
def desired_secret (sasgen : SasGenerator) : Secret :=
  let ns := sasgen.namespace_opt.getD "default"
  let secret_name := sasgen.target_secret_name none
  let status := sasgen.status.getD {}
  { metadata :=
      { name := some secret_name
        namespace_opt := some ns
        labels := some (secret_labels sasgen.spec)
        annotations := some (secret_annotations status)
        owner_references := some [controller_owner_ref sasgen] }
    string_data := some (secret_data sasgen.spec status.token) }

/-- `secret.rs` (`ensure_secret`): read the secret by name; on success apply a
forced server-side apply patch (field manager `sas-operator`) carrying the
full desired state; on a 404 API error create the secret; any other read or
write failure propagates as `ReconcileError::Kube` with no internal retry.
The source's `sasgen.target_secret_name()` call (no override) is modeled as
`target_secret_name none`. -/
def ensure_secret (sasgen : SasGenerator) (api : SecretApiBehavior) :
    Except ReconcileError Unit × List Op :=
  let secret_name := sasgen.target_secret_name none
  let secret := desired_secret sasgen
  match api.get with
  | .ok _ =>
    match api.patch with
    | .ok _ =>
      (.ok (), [.getSecret secret_name,
                .patchSecret secret_name true "sas-operator" secret])
    | .error e =>
      (.error (.kube e), [.getSecret secret_name,
                          .patchSecret secret_name true "sas-operator" secret])
  | .error (.api code m) =>
    if code = 404 then
      match api.create with
      | .ok _ => (.ok (), [.getSecret secret_name, .createSecret secret])
      | .error e =>
        (.error (.kube e), [.getSecret secret_name, .createSecret secret])
    else
      (.error (.kube (.api code m)), [.getSecret secret_name])
  | .error (.other m) =>
    (.error (.kube (.other m)), [.getSecret secret_name])

/-- anyhow error values: a bare message or a `.context(...)` wrapper around a
cause. -/
inductive AnyhowError where
  | msg (s : String)
  | context (s : String) (cause : AnyhowError)
deriving Repr, DecidableEq

/-- Display of an anyhow error (`e.to_string()` in `reconcile.rs`): the
outermost context message only. -/
def AnyhowError.toMsg : AnyhowError → String
  | .msg s => s
  | .context s _ => s

/-- Largest `u64` value (backoff arithmetic in `tokio_retry` saturates here). -/
def u64MAX : Nat := 2 ^ 64 - 1

/-- Rust `u64::checked_mul`. -/
def checked_mul (a b : Nat) : Option Nat :=
  if a * b ≤ u64MAX then some (a * b) else none

/-- The `tokio_retry::strategy::ExponentialBackoff` iterator state.  `current`
and `base` are milliseconds; `max_delay` is a cap in milliseconds. -/
structure ExponentialBackoff where
  current : Nat
  base : Nat
  factor : Nat
  max_delay : Option Nat
deriving Repr, DecidableEq

/-- `ExponentialBackoff::from_millis(base)`: the n-th delay is
`factor * base ^ (n+1)` milliseconds (the base is the *exponent base*, not
the first delay). -/
def ExponentialBackoff.from_millis (base : Nat) : ExponentialBackoff :=
  { current := base, base := base, factor := 1, max_delay := none }

/-- Builder `.factor(f)` (named `setFactor` here because `factor` is the
field projection). -/
def ExponentialBackoff.setFactor (s : ExponentialBackoff) (f : Nat) :
    ExponentialBackoff :=
  { s with factor := f }

/-- Builder `.max_delay(d)` (named `setMaxDelay` here because `max_delay` is
the field projection); the cap is given in milliseconds. -/
def ExponentialBackoff.setMaxDelay (s : ExponentialBackoff) (d : Nat) :
    ExponentialBackoff :=
  { s with max_delay := d }

/-- One step of the `ExponentialBackoff` iterator (its `Iterator::next`):
yield `current * factor` ms (saturating at `u64::MAX`); if that exceeds the
cap, yield the cap and leave `current` unchanged (the source returns early);
otherwise advance `current` to `current * base` (saturating). -/
def ExponentialBackoff.next (s : ExponentialBackoff) : Nat × ExponentialBackoff :=
  let duration := (checked_mul s.current s.factor).getD u64MAX
  match s.max_delay with
  | some md =>
    if md < duration then
      (md, s)
    else
      (duration, { s with current := (checked_mul s.current s.base).getD u64MAX })
  | none =>
    (duration, { s with current := (checked_mul s.current s.base).getD u64MAX })

/-- First `n` delays of a backoff strategy (`Iterator::take(n)`). -/
def strategy_take : ExponentialBackoff → Nat → List Nat
  | _, 0 => []
  | s, n + 1 =>
    let step := s.next
    step.1 :: strategy_take step.2 n

/-- `sas.rs` lines 34-39: the pre-jitter retry waits, in milliseconds, of
`ExponentialBackoff::from_millis(500).factor(2).max_delay(30 s).take(5)`. -/
def retry_strategy : List Nat :=
  strategy_take (((ExponentialBackoff.from_millis 500).setFactor 2).setMaxDelay 30000) 5

/-- The jittered waits: `tokio_retry::strategy::jitter` scales each wait by a
random factor in `[0, 1)`, modeled as an arbitrary function `jit`. -/
def jittered_strategy (jit : Nat → Nat) : List Nat :=
  retry_strategy.map jit

/-- `tokio_retry::Retry::spawn` over a finite strategy: run the action; on
success stop; on failure consume the next wait from the strategy and retry,
returning the last error when the strategy is exhausted.  Returns the result
together with the number of attempts made (the wait values do not influence
control flow, only timing, so they are not consumed further here). -/
def retryGo (action : Nat → Except AnyhowError String) :
    Nat → List Nat → Except AnyhowError String × Nat
  | i, delays =>
    match action i, delays with
    | .ok a, _ => (.ok a, 1)
    | .error e, [] => (.error e, 1)
    | .error _, _ :: rest =>
      let r := retryGo action (i + 1) rest
      (r.1, r.2 + 1)

/-- Result of one `generate_container_sas` call, instrumented with the
validity window it computed (the `start`/`expiry` passed to the delegation
key request) and the number of issuance attempts performed. -/
structure SasCallResult where
  result : Except AnyhowError (String × Int)
  window_start : Int
  window_end : Int
  attempts_made : Nat
deriving Repr, DecidableEq

/-- `sas.rs` (`generate_container_sas`): compute the validity window
`start = now`, `expiry = start + hours(expiry_hours)`; obtain the credential
(outcome injected as `credential`; on failure the error is wrapped in the
`Failed to create Azure WorkloadIdentityCredential` context and no issuance
attempt is made); then run the per-attempt issuance body (outcome of attempt
`i` on window `(start, expiry)` injected as `attempts start expiry i`) under
`Retry::spawn(retry_strategy.map(jitter), ...)`.  On success the token and
`expiry` are returned; on exhaustion the last error is wrapped in the
`Failed to generate SAS token after all retries` context.  The source reads
the clock itself (`OffsetDateTime::now_utc()`); the clock value is the `now`
parameter here. -/
def generate_container_sas (account container : String) (expiry_hours : Int)
    (now : Int) (credential : Except String Unit)
    (attempts : Int → Int → Nat → Except AnyhowError String) : SasCallResult :=
  let start := now
  let expiry := start + Duration.hours expiry_hours
  match credential with
  | .error e =>
    { result := .error (.context "Failed to create Azure WorkloadIdentityCredential" (.msg e))
      window_start := start
      window_end := expiry
      attempts_made := 0 }
  | .ok _ =>
    let r := retryGo (fun i => attempts start expiry i) 0 retry_strategy
    match r.1 with
    | .ok tok =>
      { result := .ok (tok, expiry)
        window_start := start
        window_end := expiry
        attempts_made := r.2 }
    | .error e =>
      { result := .error (.context "Failed to generate SAS token after all retries" e)
        window_start := start
        window_end := expiry
        attempts_made := r.2 }

/-- `kube::runtime::controller::Action`: the requeue directive returned to
the framework, in whole seconds. -/
inductive Action where
  | requeue (secs : Nat)
deriving Repr, DecidableEq

/-- `reconcile.rs` (`should_regenerate`): regenerate when the status chain
`status → expiry` is absent; when the expiry string fails to parse (also
emitting a warning, returned here as the list of warning messages); and
otherwise exactly when `now >= parsed - Duration::hours(renewal_hours)`.
RFC3339 parsing is abstracted as `parse`. -/
def should_regenerate (parse : String → Option Int) (now : Int)
    (status : Option SasGeneratorStatus) (renewal_hours : Int) :
    Bool × List String :=
  match status.bind (fun s => s.expiry) with
  | none => (true, [])
  | some expiry =>
    match parse expiry with
    | some parsed =>
      (decide (now ≥ parsed - Duration.hours renewal_hours), [])
    | none =>
      (true, ["Failed to parse expiry; will regenerate SAS token"])

/-- Modelled from the spec: `SasTokenInfo`, the output of one successful
issuance, is used by `reconcile.rs` (`token_info.token`, `.generated`,
`.expiry`) but its definition is not under `src/`; the spec's **TokenInfo**
names its fields: token value, issuance time, expiry time. -/
structure SasTokenInfo where
  token : String
  generated : Int
  expiry : Int
deriving Repr, DecidableEq

/-- `reconcile.rs` (`build_status`): the status written after a successful
issuance; timestamps are rendered with `format_rfc3339`, abstracted as
`fmt` (the source's `utils::format_rfc3339` is not under `src/`). -/
def build_status (fmt : Int → String) (token_info : SasTokenInfo)
    (secret_name : String) : SasGeneratorStatus :=
  { token := some token_info.token
    target_secret := some secret_name
    generated := some (fmt token_info.generated)
    expiry := some (fmt token_info.expiry) }

/-- `reconcile.rs` (`error_policy`): every reconciliation failure, of any
kind, produces `Action::requeue(Duration::from_secs(300))`. -/
def error_policy (err : ReconcileError) : Action :=
  Action.requeue 300

/-- `status.rs` (`update_crd_status`): patch only the status sub-resource
with a forced server-side apply attributed to field manager `sas-operator`;
a patch failure becomes `ReconcileError::CrdApply` with the message prefix
`Failed to patch CRD status: `.  The patch outcome is injected as
`patch_status`. -/
def update_crd_status (sasgen : SasGenerator) (status : SasGeneratorStatus)
    (patch_status : Except KubeError Unit) :
    Except ReconcileError Unit × List Op :=
  let op := Op.patchStatus sasgen.name true "sas-operator" sasgen.spec status
  match patch_status with
  | .ok _ => (.ok (), [op])
  | .error e =>
    (.error (.crdApply ("Failed to patch CRD status: " ++ e.toMsg)), [op])

/-- `reconcile.rs` (`reconcile`): resolve the effective renewal/TTL hours
(per-resource override, else context default); evaluate `should_regenerate`;
when not due, return `requeue(15 s)` with no side effects; when due, call
`generate_container_sas` (failure maps to `ReconcileError::Azure` of the
error's display text and aborts), build the new status over the resolved
target secret name, run `ensure_secret`, then `update_crd_status`, each
failure aborting; on success return `requeue(15 s)`.

Adaptation notes (the repository is a mid-refactor snapshot):
* `reconcile.rs` calls a five-argument `ensure_secret(sasgen, ctx,
  target_secret, labels, annotations)` which `src/` does not define;
  `secret.rs` defines the two-argument `ensure_secret(sasgen, ctx)` cited by
  the claims, which derives name, labels, annotations and data from the
  resource itself; the embedding follows `secret.rs`, so the `labels` and
  `annotations` reconcile computes are dead values here as well.
* `reconcile.rs` calls a four-argument `generate_container_sas(account,
  container, ttl_hours, now)` returning a `SasTokenInfo`; `sas.rs` defines
  the three-argument version returning `(token, expiry)` and reading the
  clock itself.  The embedding uses `sas.rs` with the clock injected as
  `now`, and glues the result into a `SasTokenInfo` whose issuance time is
  `now`, following the spec's TokenInfo (issuance time, expiry =
  issuance time + TTL-hours). -/
def reconcile (sasgen : SasGenerator) (ctx : ContextData) (now : Int)
    (fmt : Int → String) (parse : String → Option Int)
    (credential : Except String Unit)
    (attempts : Int → Int → Nat → Except AnyhowError String)
    (api : SecretApiBehavior)
    (patch_status : Except KubeError Unit) :
    Except ReconcileError Action × List Op :=
  let renewal_hours := sasgen.spec.sas_renewal_hours.getD ctx.sas_renewal_hours
  let ttl_hours := sasgen.spec.sas_ttl_hours.getD ctx.sas_ttl_hours
  if (should_regenerate parse now sasgen.status renewal_hours).1 then
    let issue_op := Op.issueSas sasgen.spec.storage_account sasgen.spec.container_name ttl_hours
    let call := generate_container_sas sasgen.spec.storage_account
      sasgen.spec.container_name ttl_hours now credential attempts
    match call.result with
    | .error e => (.error (.azure e.toMsg), [issue_op])
    | .ok tok_exp =>
      let token_info : SasTokenInfo :=
        { token := tok_exp.1, generated := now, expiry := tok_exp.2 }
      let target_secret := sasgen.target_secret_name none
      let new_status := build_status fmt token_info target_secret
      let es := ensure_secret sasgen api
      match es.1 with
      | .error e => (.error e, issue_op :: es.2)
      | .ok _ =>
        let us := update_crd_status sasgen new_status patch_status
        match us.1 with
        | .error e => (.error e, issue_op :: es.2 ++ us.2)
        | .ok _ => (.ok (.requeue 15), issue_op :: es.2 ++ us.2)
  else
    (.ok (.requeue 15), [])

/-- Secret-write operations (create or patch of the derived secret). -/
def Op.isSecretWrite : Op → Bool
  | .createSecret _ => true
  | .patchSecret _ _ _ _ => true
  | _ => false

/-- Status-write operations (status sub-resource patches). -/
def Op.isStatusWrite : Op → Bool
  | .patchStatus _ _ _ _ _ => true
  | _ => false

/-- Remote issuance calls. -/
def Op.isIssueCall : Op → Bool
  | .issueSas _ _ _ => true
  | _ => false

/-- Statuses carried by the status-write operations of a trace. -/
def writtenStatuses (ops : List Op) : List SasGeneratorStatus :=
  ops.filterMap fun op =>
    match op with
    | .patchStatus _ _ _ _ s => some s
    | _ => none

/-- Secrets carried by the create operations of a trace. -/
def createdSecrets (ops : List Op) : List Secret :=
  ops.filterMap fun op =>
    match op with
    | .createSecret s => some s
    | _ => none

/-- Concrete spec used by the evaluation theorems: required fields only. -/
def specA : SasGeneratorSpec :=
  { storage_account := "acct", container_name := "cont", secret_name := none,
    sas_ttl_hours := none, sas_renewal_hours := none }

/-- Concrete resource with no status (first issuance). -/
def genA : SasGenerator :=
  { name := "cr1", namespace_opt := some "ns1", uid := "uid1",
    spec := specA, status := none }

/-- Concrete resource with a renewal override of 1 hour and an expiry string
the evaluation theorems parse to `now + 10 h`. -/
def genB : SasGenerator :=
  { name := "cr2", namespace_opt := some "ns1", uid := "uid2",
    spec := { specA with sas_renewal_hours := some 1 },
    status := some { expiry := some "plus10h" } }

/-- Concrete resource with a TTL override of 0 hours. -/
def genC : SasGenerator :=
  { name := "cr3", namespace_opt := some "ns1", uid := "uid3",
    spec := { specA with sas_ttl_hours := some 0 }, status := none }

/-- Concrete resource that already carries a previously issued token and an
expiry string the evaluation theorems fail to parse (so regeneration is
due). -/
def genD : SasGenerator :=
  { name := "cr4", namespace_opt := some "ns1", uid := "uid4",
    spec := specA,
    status := some { token := some "oldtok", expiry := some "bad" } }

/-- Controller-wide defaults from the spec: renewal 24 h, TTL 48 h. -/
def ctxA : ContextData := { sas_renewal_hours := 24, sas_ttl_hours := 48 }

/-- Secret API behavior: the read fails with a 404, writes succeed. -/
def api404 : SecretApiBehavior :=
  { get := .error (.api 404 "not found"), create := .ok (), patch := .ok () }

/-! Helper lemmas shared by the claim theorems. -/

/-- When every attempt fails, `Retry::spawn` performs one attempt per
strategy item plus the initial one and returns the last attempt's error. -/
theorem retryGo_all_fail (action : Nat → Except AnyhowError String)
    (err : Nat → AnyhowError) (hfail : ∀ j, action j = .error (err j)) :
    ∀ (delays : List Nat) (i : Nat),
      retryGo action i delays =
        (.error (err (i + delays.length)), delays.length + 1) := by
  intro delays
  induction delays with
  | nil =>
    intro i
    simp [retryGo, hfail i]
  | cons d rest ih =>
    intro i
    have harith : i + 1 + rest.length = i + (rest.length + 1) := by omega
    simp [retryGo, hfail i, ih (i + 1), harith]

/-- `writtenStatuses` distributes over list append. -/
theorem writtenStatuses_append (l1 l2 : List Op) :
    writtenStatuses (l1 ++ l2) = writtenStatuses l1 ++ writtenStatuses l2 := by
  simp [writtenStatuses]

/-- An issuance call contributes no status write. -/
theorem writtenStatuses_issue_cons (a c : String) (t : Int) (ops : List Op) :
    writtenStatuses (Op.issueSas a c t :: ops) = writtenStatuses ops := by
  simp [writtenStatuses]

/-- `ensure_secret` never writes the status sub-resource. -/
theorem ensure_secret_no_status_write (sasgen : SasGenerator)
    (api : SecretApiBehavior) :
    writtenStatuses (ensure_secret sasgen api).2 = [] := by
  unfold ensure_secret
  rcases api.get with e | s
  · cases e with
    | api code m =>
      by_cases h : code = 404
      · cases api.create <;> simp [writtenStatuses, h]
      · simp [writtenStatuses, h]
    | other m => simp [writtenStatuses]
  · cases api.patch <;> simp [writtenStatuses]

/-- `update_crd_status` writes exactly the given status, whether or not the
patch succeeds. -/
theorem update_crd_status_writes (sasgen : SasGenerator)
    (status : SasGeneratorStatus) (ps : Except KubeError Unit) :
    writtenStatuses (update_crd_status sasgen status ps).2 = [status] := by
  unfold update_crd_status
  cases ps <;> simp [writtenStatuses]

/-- A successful issuance returns the expiry the validity window was
computed with: `now + hours(ttl)`. -/
theorem generate_ok_expiry (account container : String) (ttl now : Int)
    (credential : Except String Unit)
    (attempts : Int → Int → Nat → Except AnyhowError String)
    (tok : String) (e2 : Int)
    (h : (generate_container_sas account container ttl now credential
      attempts).result = .ok (tok, e2)) :
    e2 = now + Duration.hours ttl := by
  unfold generate_container_sas at h
  rcases credential with e | u
  · simp at h
  · rcases hr : (retryGo (fun i => attempts now (now + Duration.hours ttl) i) 0
      retry_strategy).1 with er | t <;> simp [hr] at h
    exact h.2.symm

/-- Every status a reconciliation writes is `build_status` applied to a
token info whose issuance time is `now` and whose expiry is
`now + hours(effective ttl)`, over the resolved target secret name. -/
theorem reconcile_status_shape (sasgen : SasGenerator) (ctx : ContextData)
    (now : Int) (fmt : Int → String) (parse : String → Option Int)
    (credential : Except String Unit)
    (attempts : Int → Int → Nat → Except AnyhowError String)
    (api : SecretApiBehavior) (patch_status : Except KubeError Unit) :
    ∀ s ∈ writtenStatuses (reconcile sasgen ctx now fmt parse credential
        attempts api patch_status).2,
      ∃ tok, s = build_status fmt
        { token := tok, generated := now,
          expiry := now + Duration.hours (sasgen.spec.sas_ttl_hours.getD ctx.sas_ttl_hours) }
        (sasgen.target_secret_name none) := by
  intro s hs
  simp only [reconcile] at hs
  split at hs
  case isFalse =>
    simp [writtenStatuses] at hs
  case isTrue hdue =>
    split at hs
    case h_1 te hres =>
      simp [writtenStatuses] at hs
    case h_2 e hres =>
      have hexp := generate_ok_expiry sasgen.spec.storage_account
        sasgen.spec.container_name (sasgen.spec.sas_ttl_hours.getD ctx.sas_ttl_hours)
        now credential attempts e.1 e.2 (by rw [hres])
      split at hs
      case h_1 ee hes =>
        simp only [writtenStatuses_issue_cons, ensure_secret_no_status_write] at hs
        simp at hs
      case h_2 u hes =>
        split at hs
        all_goals
          simp only [writtenStatuses_issue_cons, writtenStatuses_append,
            ensure_secret_no_status_write, update_crd_status_writes] at hs
          simp at hs
          exact ⟨e.1, by rw [hs, ← hexp]⟩

/-! Claim theorems. -/

/-- C2: for every resource whose status carries an expiry string that parses
to the instant `e`, and every renewal window of `r` hours and instant `now`,
`should_regenerate` returns true if and only if `now >= e - r` hours. -/
theorem should_regenerate_iff_window (parse : String → Option Int) (now : Int)
    (s : SasGeneratorStatus) (r : Int) (es : String) (e : Int)
    (hexp : s.expiry = some es) (hparse : parse es = some e) :
    (should_regenerate parse now (some s) r).1 = true ↔
      now ≥ e - Duration.hours r := by
  simp [should_regenerate, hexp, hparse]

/-- Witness for C2 at a concrete input: expiry parses to 100 h, renewal 24 h,
`now = 0`; regeneration is exactly the stated comparison. -/
theorem should_regenerate_iff_window_witness :
    (should_regenerate (fun str => if str = "exp" then some (Duration.hours 100) else none)
        0 (some { expiry := some "exp" }) 24).1 = true ↔
      (0 : Int) ≥ Duration.hours 100 - Duration.hours 24 :=
  should_regenerate_iff_window
    (fun str => if str = "exp" then some (Duration.hours 100) else none)
    0 { expiry := some "exp" } 24 "exp" (Duration.hours 100) rfl (by decide)

/-- C7: `should_regenerate` fails open — it returns true whenever the status
is absent, the status has no expiry value, or the expiry string does not
parse, regardless of `now`, the renewal window, or any other field; in the
unparseable case a warning is logged. -/
theorem should_regenerate_fail_open (parse : String → Option Int) (now r : Int) :
    should_regenerate parse now none r = (true, []) ∧
    (∀ s : SasGeneratorStatus, s.expiry = none →
      should_regenerate parse now (some s) r = (true, [])) ∧
    (∀ (s : SasGeneratorStatus) (es : String), s.expiry = some es →
      parse es = none →
      should_regenerate parse now (some s) r =
        (true, ["Failed to parse expiry; will regenerate SAS token"])) := by
  refine ⟨rfl, ?_, ?_⟩
  · intro s h
    simp [should_regenerate, h]
  · intro s es h hp
    simp [should_regenerate, h, hp]

/-- Witness for C7 at concrete inputs: no status, a status with no expiry,
and an unparseable expiry all regenerate; the last logs the warning. -/
theorem should_regenerate_fail_open_witness :
    should_regenerate (fun _ => none) 5 none 7 = (true, []) ∧
    should_regenerate (fun _ => none) 5 (some { token := some "t" }) 7 = (true, []) ∧
    should_regenerate (fun _ => none) 5 (some { expiry := some "garbage" }) 7 =
      (true, ["Failed to parse expiry; will regenerate SAS token"]) :=
  ⟨(should_regenerate_fail_open (fun _ => none) 5 7).1,
   (should_regenerate_fail_open (fun _ => none) 5 7).2.1 { token := some "t" } rfl,
   (should_regenerate_fail_open (fun _ => none) 5 7).2.2 { expiry := some "garbage" }
     "garbage" rfl rfl⟩

/-- C10: `target_secret_name` returns the explicit override when given, else
`spec.secret_name` when set, else exactly
`"volsync-" ++ storage_account ++ "-" ++ container_name`, so the default
derived name is determined by the account and container identifiers alone. -/
theorem target_secret_name_resolution (sasgen : SasGenerator) :
    (∀ nm, sasgen.target_secret_name (some nm) = nm) ∧
    (∀ nm, sasgen.spec.secret_name = some nm →
      sasgen.target_secret_name none = nm) ∧
    (sasgen.spec.secret_name = none →
      sasgen.target_secret_name none =
        "volsync-" ++ sasgen.spec.storage_account ++ "-" ++
          sasgen.spec.container_name) := by
  refine ⟨fun nm => rfl, ?_, ?_⟩
  · intro nm h
    simp [SasGenerator.target_secret_name, h]
  · intro h
    simp [SasGenerator.target_secret_name, h]

/-- Witness for C10 at a concrete resource: override wins, and without
override or spec name the default is `volsync-acct-cont`. -/
theorem target_secret_name_resolution_witness :
    genA.target_secret_name (some "forced") = "forced" ∧
    genA.target_secret_name none = "volsync-acct-cont" :=
  ⟨(target_secret_name_resolution genA).1 "forced",
   (target_secret_name_resolution genA).2.2 rfl⟩

/-- C8: when the expiry policy decides regeneration is not due, the
orchestrator performs no side effects — no issuance call, no secret write,
no status write — and returns a requeue-after directive of 15 seconds. -/
theorem reconcile_not_due_no_side_effects (sasgen : SasGenerator)
    (ctx : ContextData) (now : Int) (fmt : Int → String)
    (parse : String → Option Int) (credential : Except String Unit)
    (attempts : Int → Int → Nat → Except AnyhowError String)
    (api : SecretApiBehavior) (patch_status : Except KubeError Unit)
    (hnot : (should_regenerate parse now sasgen.status
      (sasgen.spec.sas_renewal_hours.getD ctx.sas_renewal_hours)).1 = false) :
    reconcile sasgen ctx now fmt parse credential attempts api patch_status =
      (.ok (.requeue 15), []) := by
  simp [reconcile, hnot]

/-- Witness for C8 at a concrete input: expiry `now + 10 h`, renewal
override 1 h, so regeneration does not fire and the reconciliation returns
`requeue 15 s` with an empty operation trace. -/
theorem reconcile_not_due_no_side_effects_witness :
    reconcile genB ctxA 0 (fun t => toString t)
        (fun str => if str = "plus10h" then some (Duration.hours 10) else none)
        (.ok ()) (fun _ _ _ => .ok "tok") api404 (.ok ()) =
      (.ok (.requeue 15), []) :=
  reconcile_not_due_no_side_effects genB ctxA 0 (fun t => toString t)
    (fun str => if str = "plus10h" then some (Duration.hours 10) else none)
    (.ok ()) (fun _ _ _ => .ok "tok") api404 (.ok ()) (by decide)

/-- C6: `ensure_secret` first reads the secret by name; when the read fails
with a 404 (not-found) API error it creates the secret with full metadata
including the owner back-reference to the resource; when the secret exists
it applies a forced server-side apply patch (field manager `sas-operator`)
carrying the full desired state; any other read or write failure propagates
to the caller with no internal retry. -/
theorem ensure_secret_upsert (sasgen : SasGenerator) (api : SecretApiBehavior) :
    (∀ s, api.get = .ok s →
      ensure_secret sasgen api =
        ((match api.patch with
          | .ok _ => .ok ()
          | .error e => .error (.kube e)),
         [.getSecret (sasgen.target_secret_name none),
          .patchSecret (sasgen.target_secret_name none) true "sas-operator"
            (desired_secret sasgen)])) ∧
    (∀ m, api.get = .error (.api 404 m) →
      ensure_secret sasgen api =
        ((match api.create with
          | .ok _ => .ok ()
          | .error e => .error (.kube e)),
         [.getSecret (sasgen.target_secret_name none),
          .createSecret (desired_secret sasgen)]) ∧
      (desired_secret sasgen).metadata.owner_references =
        some [controller_owner_ref sasgen]) ∧
    (∀ code m, api.get = .error (.api code m) → code ≠ 404 →
      ensure_secret sasgen api =
        (.error (.kube (.api code m)),
         [.getSecret (sasgen.target_secret_name none)])) ∧
    (∀ m, api.get = .error (.other m) →
      ensure_secret sasgen api =
        (.error (.kube (.other m)),
         [.getSecret (sasgen.target_secret_name none)])) := by
  refine ⟨?_, ?_, ?_, ?_⟩
  · intro s hget
    cases hp : api.patch <;> simp [ensure_secret, hget, hp]
  · intro m hget
    refine ⟨?_, rfl⟩
    cases hc : api.create <;> simp [ensure_secret, hget, hc]
  · intro code m hget hne
    simp [ensure_secret, hget, hne]
  · intro m hget
    simp [ensure_secret, hget]

/-- Witness for C6 at a concrete input: the read 404s, so the secret is
created, carrying the owner back-reference. -/
theorem ensure_secret_upsert_witness :
    ensure_secret genA api404 =
      ((match api404.create with
        | .ok _ => .ok ()
        | .error e => .error (.kube e)),
       [.getSecret (genA.target_secret_name none),
        .createSecret (desired_secret genA)]) ∧
    (desired_secret genA).metadata.owner_references =
      some [controller_owner_ref genA] :=
  (ensure_secret_upsert genA api404).2.1 "not found" rfl

/-- C3: when token issuance fails (here: every retry attempt fails), the
reconciliation writes neither the secret nor the status, the failure is
reported to the caller as `ReconcileError::Azure` of the issuance error's
display text, and `error_policy` returns a fixed 300-second requeue for
every error value. -/
theorem reconcile_issuance_failure_no_writes (sasgen : SasGenerator)
    (ctx : ContextData) (now : Int) (fmt : Int → String)
    (parse : String → Option Int)
    (attempts : Int → Int → Nat → Except AnyhowError String)
    (err : Int → Int → Nat → AnyhowError)
    (api : SecretApiBehavior) (patch_status : Except KubeError Unit)
    (hdue : (should_regenerate parse now sasgen.status
      (sasgen.spec.sas_renewal_hours.getD ctx.sas_renewal_hours)).1 = true)
    (hfail : ∀ s e i, attempts s e i = .error (err s e i)) :
    (reconcile sasgen ctx now fmt parse (.ok ()) attempts api patch_status).1 =
      .error (.azure "Failed to generate SAS token after all retries") ∧
    ((reconcile sasgen ctx now fmt parse (.ok ()) attempts api
        patch_status).2.filter Op.isSecretWrite) = [] ∧
    ((reconcile sasgen ctx now fmt parse (.ok ()) attempts api
        patch_status).2.filter Op.isStatusWrite) = [] ∧
    (∀ e, error_policy e = .requeue 300) := by
  have hret := retryGo_all_fail
    (fun i => attempts now
      (now + Duration.hours (sasgen.spec.sas_ttl_hours.getD ctx.sas_ttl_hours)) i)
    (fun i => err now
      (now + Duration.hours (sasgen.spec.sas_ttl_hours.getD ctx.sas_ttl_hours)) i)
    (fun j => hfail _ _ j) retry_strategy 0
  refine ⟨?_, ?_, ?_, fun e => rfl⟩ <;>
    simp [reconcile, hdue, generate_container_sas, hret, AnyhowError.toMsg,
      Op.isSecretWrite, Op.isStatusWrite]

/-- Witness for C3 at a concrete input: a resource with no status (due) and
attempts that always fail; no secret or status write appears in the trace
and the caller sees the Azure error; `error_policy` requeues after 300 s. -/
theorem reconcile_issuance_failure_no_writes_witness :
    (reconcile genA ctxA 0 (fun t => toString t) (fun _ => none) (.ok ())
        (fun _ _ _ => .error (.msg "boom")) api404 (.ok ())).1 =
      .error (.azure "Failed to generate SAS token after all retries") ∧
    ((reconcile genA ctxA 0 (fun t => toString t) (fun _ => none) (.ok ())
        (fun _ _ _ => .error (.msg "boom")) api404 (.ok ())).2.filter
      Op.isSecretWrite) = [] ∧
    ((reconcile genA ctxA 0 (fun t => toString t) (fun _ => none) (.ok ())
        (fun _ _ _ => .error (.msg "boom")) api404 (.ok ())).2.filter
      Op.isStatusWrite) = [] ∧
    (∀ e, error_policy e = .requeue 300) :=
  reconcile_issuance_failure_no_writes genA ctxA 0 (fun t => toString t)
    (fun _ => none) (fun _ _ _ => .error (.msg "boom")) (fun _ _ _ => .msg "boom")
    api404 (.ok ()) rfl (fun _ _ _ => rfl)

/-- C4 counterexample: the claim's retry numbers do not match the code.  The
first pre-jitter wait of
`ExponentialBackoff::from_millis(500).factor(2)` is 1000 ms, not 500 ms
(and the second is already the 30 s cap, not a doubling), and a run whose
attempts all fail performs 6 attempts (1 initial + 5 retries), not 5. -/
theorem retry_policy_counterexample :
    retry_strategy = [1000, 30000, 30000, 30000, 30000] ∧
    retry_strategy.head? = some 1000 ∧ (1000 : Nat) ≠ 500 ∧
    (generate_container_sas "a" "c" 1 0 (.ok ())
      (fun _ _ _ => .error (.msg "boom"))).attempts_made = 6 ∧
    (6 : Nat) ≠ 5 := by
  refine ⟨by decide, by decide, by decide, ?_, by decide⟩
  have hret := retryGo_all_fail
    (fun i => (fun (_ : Int) (_ : Int) (_ : Nat) =>
      (.error (.msg "boom") : Except AnyhowError String)) 0 (Duration.hours 1) i)
    (fun _ => .msg "boom") (fun _ => rfl) retry_strategy 0
  simp [generate_container_sas, hret]
  decide

/-- C4 amended: the remote issuance call is retried under
`ExponentialBackoff::from_millis(500).factor(2).max_delay(30 s).take(5)`
with jitter; the pre-jitter waits are 1000 ms and then 30 s (wait n is
`2 * 500 ^ (n+1)` ms capped at 30 s), each wait is jittered, there are at
most 5 retry waits and hence a hard ceiling of 6 attempts in total, and on
exhausting the ceiling the issuer fails with an error wrapping the last
underlying cause. -/
theorem retry_policy_amended (account container : String) (ttl now : Int)
    (attempts : Int → Int → Nat → Except AnyhowError String)
    (err : Int → Int → Nat → AnyhowError) (jit : Nat → Nat)
    (hfail : ∀ s e i, attempts s e i = .error (err s e i)) :
    retry_strategy = [1000, 30000, 30000, 30000, 30000] ∧
    jittered_strategy jit =
      [jit 1000, jit 30000, jit 30000, jit 30000, jit 30000] ∧
    (generate_container_sas account container ttl now (.ok ())
      attempts).attempts_made = 6 ∧
    (generate_container_sas account container ttl now (.ok ())
      attempts).result =
      .error (.context "Failed to generate SAS token after all retries"
        (err now (now + Duration.hours ttl) 5)) := by
  have hret := retryGo_all_fail
    (fun i => attempts now (now + Duration.hours ttl) i)
    (fun i => err now (now + Duration.hours ttl) i)
    (fun j => hfail _ _ j) retry_strategy 0
  have hL : retry_strategy.length = 5 := by decide
  have hret2 : retryGo (fun i => attempts now (now + Duration.hours ttl) i) 0
      retry_strategy =
      (.error (err now (now + Duration.hours ttl) 5), 6) := by
    rw [hret, hL]
  have hlen : retry_strategy = [1000, 30000, 30000, 30000, 30000] := by decide
  refine ⟨hlen, by rw [jittered_strategy, hlen]; rfl, ?_, ?_⟩ <;>
    simp [generate_container_sas, hret2]

/-- Witness for C4 amended, at a concrete always-failing attempt body. -/
theorem retry_policy_amended_witness :
    retry_strategy = [1000, 30000, 30000, 30000, 30000] ∧
    jittered_strategy (fun n => n / 2) =
      [500, 15000, 15000, 15000, 15000] ∧
    (generate_container_sas "a" "c" 1 0 (.ok ())
      (fun _ _ i => .error (.msg (toString i)))).attempts_made = 6 ∧
    (generate_container_sas "a" "c" 1 0 (.ok ())
      (fun _ _ i => .error (.msg (toString i)))).result =
      .error (.context "Failed to generate SAS token after all retries"
        (.msg "5")) :=
  retry_policy_amended "a" "c" 1 0 (fun _ _ i => .error (.msg (toString i)))
    (fun _ _ i => .msg (toString i)) (fun n => n / 2) (fun _ _ _ => rfl)

/-- C5 counterexample: the validity window is not back-dated.  At `now = 0`
with a 1-hour TTL the window start the issuer computes (and passes to the
delegation-key request) is 0, not `0 - 5 s`. -/
theorem validity_window_counterexample :
    (generate_container_sas "a" "c" 1 0 (.ok ())
      (fun _ _ _ => .ok "t")).window_start = 0 ∧
    (0 : Int) ≠ 0 - Duration.seconds 5 := by
  exact ⟨rfl, by decide⟩

/-- C5 amended: for every issuance request at instant `now` with TTL
`ttlHours`, the issuer computes the validity window
`[now, now + ttlHours * hours]`: the start is exactly `now` (no back-dating)
and the end is exactly `ttlHours` hours after `now`. -/
theorem validity_window_amended (account container : String) (ttl now : Int)
    (credential : Except String Unit)
    (attempts : Int → Int → Nat → Except AnyhowError String) :
    (generate_container_sas account container ttl now credential
      attempts).window_start = now ∧
    (generate_container_sas account container ttl now credential
      attempts).window_end = now + Duration.hours ttl := by
  unfold generate_container_sas
  rcases credential with e | u
  · exact ⟨rfl, rfl⟩
  · rcases hr : (retryGo (fun i => attempts now (now + Duration.hours ttl) i) 0
      retry_strategy).1 with er | t <;> simp [hr]

/-- C9 counterexample: the code never validates that the effective TTL-hours
is positive, so the invariant "expiry strictly after issuance" fails.  With
a per-resource TTL override of 0 hours (resource `genC`) a reconciliation at
`now = 0` succeeds and writes a status whose generated and expiry stamps are
both the rendering of instant 0 — the expiry is not strictly after the
issuance time. -/
theorem expiry_not_after_counterexample :
    (writtenStatuses (reconcile genC ctxA 0 (fun t => toString t)
        (fun _ => none) (.ok ()) (fun _ _ _ => .ok "tok1") api404
        (.ok ())).2).map (fun s => (s.generated, s.expiry)) =
      [(some "0", some "0")] ∧
    ¬ ((0 : Int) < (0 : Int)) := by
  exact ⟨by decide, by decide⟩

/-- C9 amended: every status a reconciliation writes carries
`generated = now` and `expiry = now + effective-TTL hours` (rendered with
the same timestamp renderer), and the expiry instant is strictly after the
issuance instant whenever the effective TTL-hours is positive; the code does
not validate positivity, so a zero or negative TTL override breaks
strictness. -/
theorem status_expiry_after_generated (sasgen : SasGenerator)
    (ctx : ContextData) (now : Int) (fmt : Int → String)
    (parse : String → Option Int) (credential : Except String Unit)
    (attempts : Int → Int → Nat → Except AnyhowError String)
    (api : SecretApiBehavior) (patch_status : Except KubeError Unit)
    (httl : 0 < sasgen.spec.sas_ttl_hours.getD ctx.sas_ttl_hours) :
    ∀ s ∈ writtenStatuses (reconcile sasgen ctx now fmt parse credential
        attempts api patch_status).2,
      s.generated = some (fmt now) ∧
      s.expiry = some (fmt (now + Duration.hours
        (sasgen.spec.sas_ttl_hours.getD ctx.sas_ttl_hours))) ∧
      now < now + Duration.hours
        (sasgen.spec.sas_ttl_hours.getD ctx.sas_ttl_hours) := by
  intro s hs
  obtain ⟨tok, hst⟩ := reconcile_status_shape sasgen ctx now fmt parse
    credential attempts api patch_status s hs
  have hpos : 0 < Duration.hours (sasgen.spec.sas_ttl_hours.getD ctx.sas_ttl_hours) := by
    unfold Duration.hours
    have h1 : (0 : Int) < 3600 := by norm_num
    have h2 : (0 : Int) < 1000000000 := by norm_num
    exact mul_pos (mul_pos httl h1) h2
  rw [hst]
  exact ⟨rfl, rfl, by linarith⟩

/-- Witness for C9 amended at a concrete input: the default 48-hour TTL is
positive, and the status the reconciliation of `genA` writes has
`generated = render 0` and `expiry = render (0 + 48 h)`, which is strictly
later. -/
theorem status_expiry_after_generated_witness :
    ({ token := some "tok1", target_secret := some "volsync-acct-cont",
       generated := some "0",
       expiry := some "172800000000000" } : SasGeneratorStatus).generated =
        some (toString (0 : Int)) ∧
    ({ token := some "tok1", target_secret := some "volsync-acct-cont",
       generated := some "0",
       expiry := some "172800000000000" } : SasGeneratorStatus).expiry =
        some (toString ((0 : Int) + Duration.hours
          (genA.spec.sas_ttl_hours.getD ctxA.sas_ttl_hours))) ∧
    (0 : Int) < 0 + Duration.hours (genA.spec.sas_ttl_hours.getD ctxA.sas_ttl_hours) :=
  status_expiry_after_generated genA ctxA 0 (fun t => toString t)
    (fun _ => none) (.ok ()) (fun _ _ _ => .ok "tok1") api404 (.ok ())
    (by decide)
    { token := some "tok1", target_secret := some "volsync-acct-cont",
      generated := some "0", expiry := some "172800000000000" }
    (by decide)

/-- C1 (code-bug evidence): a successful reconciliation writes the freshly
issued token into the status, but the secret it publishes in that same
reconciliation carries the resource's *previous* status token in its
`sas_token` data entry (`ensure_secret` derives the data from
`sasgen.status`, the pre-reconciliation status, instead of the newly built
status).  On a first issuance (`genA`, no prior status) the published
`sas_token` is the empty string, and for a resource with an earlier token
(`genD`) it is the stale `oldtok` — in both cases different from the newly
issued `tok1` recorded in the status. -/
theorem reconcile_publishes_stale_token :
    (reconcile genA ctxA 0 (fun t => toString t) (fun _ => none) (.ok ())
        (fun _ _ _ => .ok "tok1") api404 (.ok ())).1 = .ok (.requeue 15) ∧
    (writtenStatuses (reconcile genA ctxA 0 (fun t => toString t)
        (fun _ => none) (.ok ()) (fun _ _ _ => .ok "tok1") api404
        (.ok ())).2).map (fun s => s.token) = [some "tok1"] ∧
    (createdSecrets (reconcile genA ctxA 0 (fun t => toString t)
        (fun _ => none) (.ok ()) (fun _ _ _ => .ok "tok1") api404
        (.ok ())).2).map
      (fun s => (s.string_data.getD []).lookup "sas_token") = [some ""] ∧
    (writtenStatuses (reconcile genD ctxA 0 (fun t => toString t)
        (fun _ => none) (.ok ()) (fun _ _ _ => .ok "tok1") api404
        (.ok ())).2).map (fun s => s.token) = [some "tok1"] ∧
    (createdSecrets (reconcile genD ctxA 0 (fun t => toString t)
        (fun _ => none) (.ok ()) (fun _ _ _ => .ok "tok1") api404
        (.ok ())).2).map
      (fun s => (s.string_data.getD []).lookup "sas_token") = [some "oldtok"] ∧
    (some "" : Option String) ≠ some "tok1" ∧
    (some "oldtok" : Option String) ≠ some "tok1" := by
  refine ⟨by decide, by decide, by decide, by decide, by decide, by decide, by decide⟩

end SasOperator
